import Mathlib

/-!
Verification of the order lifecycle and payment settlement core of the
`dibanez/e-commerce` Django application, as a shallow embedding in Lean 4.

Monetary values use `Rat`: Python `decimal.Decimal` arithmetic as used in the
source (sums, products, comparisons, no rounding/quantize calls in the
modelled code paths) is exact rational arithmetic on decimal literals.

Source files embedded:
- `apps/orders/models.py` (Order FSM transitions, `calculate_totals`)
- `apps/orders/signals.py` (`track_order_status_change` receiver)
- `apps/orders/services.py` (`process_payment_success`, `cancel_order`)
- `apps/payments/models.py` (Payment state, derived amounts, `mark_as_*`)
- `apps/payments/services.py` (`initiate_payment`, `process_webhook`,
  `refund_payment`)
-/

namespace ECommerce

/-- Order lifecycle statuses, from `Order.STATUS_CHOICES` in
`apps/orders/models.py`. -/
inductive OrderStatus
  | draft
  | pending_payment
  | paid
  | processing
  | shipped
  | delivered
  | canceled
  | refunded
deriving DecidableEq

/-! ## Totals calculation (`Order.calculate_totals`, apps/orders/models.py:243-259) -/

/-- The four monetary fields written by `Order.calculate_totals`. -/
structure OrderTotals where
  subtotal : Rat
  tax_total : Rat
  shipping_total : Rat
  grand_total : Rat
deriving DecidableEq

/-- `Order.calculate_totals` (apps/orders/models.py:243-259): inputs are the
`line_total` of each related `OrderItem` and the order's `discount_total`
field, which the method reads but does not recompute. -/
def calculate_totals (line_totals : List Rat) (discount_total : Rat) : OrderTotals :=
  let subtotal := line_totals.sum
  let tax_rate : Rat := 0.21
  let tax_total := subtotal * tax_rate
  let shipping_total : Rat := if subtotal ≥ 50.00 then 0.00 else 5.95
  { subtotal := subtotal
    tax_total := tax_total
    shipping_total := shipping_total
    grand_total := subtotal + tax_total + shipping_total - discount_total }

/-! ## Order state machine (apps/orders/models.py:262-315)

The `@transition` decorators on `Order` declare, for each transition method,
its admissible source statuses and its target status.  The decorator's
dispatch machinery (the `django_fsm` library) is an external dependency, not
part of src/; its raise-on-invalid-source behaviour is modelled from the
spec below (`fsm_step`). -/

/-- The seven transition methods declared on `Order`. -/
inductive TransitionName
  | submit
  | mark_as_paid
  | start_processing
  | ship
  | deliver
  | cancel
  | refund
deriving DecidableEq

/-- `source=` lists of the `@transition` decorators in
apps/orders/models.py:262-315. -/
def transition_sources : TransitionName → List OrderStatus
  | .submit => [.draft]
  | .mark_as_paid => [.pending_payment]
  | .start_processing => [.paid]
  | .ship => [.processing]
  | .deliver => [.shipped]
  | .cancel => [.draft, .pending_payment, .paid, .processing]
  | .refund => [.paid]

/-- `target=` of the `@transition` decorators in apps/orders/models.py:262-315. -/
def transition_target : TransitionName → OrderStatus
  | .submit => .pending_payment
  | .mark_as_paid => .paid
  | .start_processing => .processing
  | .ship => .shipped
  | .deliver => .delivered
  | .cancel => .canceled
  | .refund => .refunded

/-- The data carried by an invalid-transition error: current status, the
attempted transition, and that transition's valid source statuses. -/
structure TransitionError where
  current : OrderStatus
  attempted : TransitionName
  valid_sources : List OrderStatus
deriving DecidableEq

/-- Modelled from the spec: the FSM dispatch of the external `django_fsm`
library (not in src/).  Per the spec, a transition attempted from a listed
source moves the status to the declared target, and a transition attempted
from a non-listed source fails with an invalid-transition error identifying
the current status, the attempted transition and the valid source states. -/
def fsm_step (s : OrderStatus) (t : TransitionName) : Except TransitionError OrderStatus :=
  if s ∈ transition_sources t then .ok (transition_target t)
  else .error ⟨s, t, transition_sources t⟩

/-- Invoking a transition method on an order: on success the status moves to
the target; on an invalid-transition error the status field is unchanged. -/
def apply_transition (s : OrderStatus) (t : TransitionName) :
    OrderStatus × Option TransitionError :=
  match fsm_step s t with
  | .ok s' => (s', none)
  | .error e => (s, some e)

/-! ## Status-history signal receiver (apps/orders/signals.py:11-23) -/

/-- An `OrderStatusHistory` row as created by the receiver (order foreign key
omitted: the model below tracks a single order's history list). -/
structure HistoryRow where
  from_status : OrderStatus
  to_status : OrderStatus
deriving DecidableEq

/-- `track_order_status_change` (apps/orders/signals.py:11-23): given the
signal's `source` and `target` arguments it creates one history row with
`from_status = source` and `to_status = target`. -/
def track_order_status_change (source target : OrderStatus) : HistoryRow :=
  ⟨source, target⟩

/-- The receivers actually connected to `django_fsm`'s `post_transition`
signal at startup.  A Django `@receiver` is connected only when its defining
module is imported.  No module under src/ imports `apps.orders.signals`: the
`apps.orders` app ships no `AppConfig` with a `ready()` hook (contrast
`apps/payments/apps.py`, which has one to load providers), and no other file
imports the module.  The connected-receiver list is therefore empty. -/
def connected_post_transition_receivers : List (OrderStatus → OrderStatus → HistoryRow) :=
  []

/-- Running one transition method against an order with its history log:
`django_fsm` fires `post_transition` after a successful transition, appending
one row per connected receiver; a failed transition changes nothing. -/
def run_transition (s : OrderStatus) (hist : List HistoryRow) (t : TransitionName) :
    (OrderStatus × List HistoryRow) × Option TransitionError :=
  match fsm_step s t with
  | .ok s' =>
      ((s', hist ++ connected_post_transition_receivers.map (fun r => r s s')), none)
  | .error e => ((s, hist), some e)

/-! ## Payment data model (apps/payments/models.py) -/

/-- Payment statuses, from `Payment.STATUS_CHOICES`. -/
inductive PaymentStatus
  | pending
  | authorized
  | captured
  | completed
  | failed
  | canceled
  | refunded
  | partially_refunded
deriving DecidableEq

/-- Transaction types, from `Transaction.TYPE_CHOICES`. -/
inductive TxnType
  | authorize
  | capture
  | sale
  | refund
  | void
  | webhook
deriving DecidableEq

/-- One `Transaction` row under a `Payment` (fields used by the modelled
code paths; `amount` is nullable in the schema). -/
structure Txn where
  type : TxnType
  amount : Option Rat
  success : Bool
  external_id : String
deriving DecidableEq

/-- A `Payment` row together with its `transactions` relation. -/
structure PaymentState where
  status : PaymentStatus
  amount : Rat
  external_id : String
  provider_code : String
  failure_reason : String
  transactions : List Txn
deriving DecidableEq

/-- `Payment.can_be_refunded` (apps/payments/models.py:133-137). -/
def can_be_refunded (p : PaymentState) : Bool :=
  p.status = .completed ∨ p.status = .captured

/-- `Payment.refunded_amount` (apps/payments/models.py:140-150): sum of the
amounts of successful refund transactions (a successful refund transaction
always carries the provider-reported amount; a null amount reads as 0). -/
def refunded_amount (p : PaymentState) : Rat :=
  ((p.transactions.filter (fun t => t.type = .refund ∧ t.success)).map
    (fun t => t.amount.getD 0)).sum

/-- `Payment.refundable_amount` (apps/payments/models.py:153-160). -/
def refundable_amount (p : PaymentState) : Rat :=
  if ¬ can_be_refunded p then 0
  else p.amount - refunded_amount p

/-- `Payment.mark_as_completed` (apps/payments/models.py:186-196): sets the
status to `completed` and overwrites `external_id` only when the argument is
non-empty (Python `if external_id:`). -/
def mark_as_completed (p : PaymentState) (external_id : String) : PaymentState :=
  { p with
    status := .completed
    external_id := if external_id ≠ "" then external_id else p.external_id }

/-- `Payment.mark_as_authorized` (apps/payments/models.py:162-172). -/
def mark_as_authorized (p : PaymentState) (external_id : String) : PaymentState :=
  { p with
    status := .authorized
    external_id := if external_id ≠ "" then external_id else p.external_id }

/-- `Payment.mark_as_failed` (apps/payments/models.py:198-207). -/
def mark_as_failed (p : PaymentState) (reason : String) : PaymentState :=
  { p with status := .failed, failure_reason := reason }

/-! ## Order aggregate state for the service layer -/

/-- The product fields read and written by the stock side effects
(`apps/catalog/models.py` `Product.track_inventory`, `Product.stock_quantity`,
a `PositiveIntegerField`). -/
structure Product where
  track_inventory : Bool
  stock_quantity : Nat
deriving DecidableEq

/-- An `OrderItem` with its related product inlined (each item of an order
references a distinct product: `unique_together [order, product]`). -/
structure OrderItem where
  quantity : Nat
  product : Product
deriving DecidableEq

/-- The order fields read and written by the service layer. -/
structure OrderState where
  id : String
  status : OrderStatus
  items : List OrderItem
  grand_total : Rat
deriving DecidableEq

/-! ## Order service layer (apps/orders/services.py) -/

/-- Python-level errors (`ValueError` raises and FSM errors) escaping a
service call. -/
inductive SvcError
  | order_not_payable
  | provider_unavailable
  | payment_not_refundable
  | zero_refund_amount
  | refund_exceeds_refundable
  | order_not_pending_payment
  | order_not_cancelable
deriving DecidableEq

/-- The stock update applied to each order item by
`process_payment_success` (apps/orders/services.py:152-156): decrement only
inventory-tracked items with sufficient stock (the decrement is silently
skipped otherwise). -/
def apply_stock_decrement (it : OrderItem) : OrderItem :=
  if it.product.track_inventory ∧ it.quantity ≤ it.product.stock_quantity then
    { it with product :=
      { it.product with stock_quantity := it.product.stock_quantity - it.quantity } }
  else it

/-- `OrderService.process_payment_success` (apps/orders/services.py:140-156):
guard that the order is in `pending_payment` (else raise), `mark_as_paid()`,
then for each item whose product tracks inventory decrement its stock by the
ordered quantity only when sufficient stock remains (silently skipped
otherwise).  The method is wrapped in `transaction.atomic`, so an error
leaves no partial mutation. -/
def process_payment_success (o : OrderState) : Except SvcError OrderState :=
  if o.status ≠ .pending_payment then .error .order_not_pending_payment
  else
    match fsm_step o.status .mark_as_paid with
    | .error _ => .error .order_not_pending_payment
    | .ok s' =>
      .ok { o with
        status := s'
        items := o.items.map apply_stock_decrement }

/-- `OrderService.cancel_order` (apps/orders/services.py:160-176): guard that
the status is cancelable (else raise), restore stock for every
inventory-tracked item when the order was `paid` or `processing`, then run
the `cancel()` FSM transition. -/
def cancel_order (o : OrderState) : Except SvcError OrderState :=
  if o.status ∉ ([.draft, .pending_payment, .paid, .processing] : List OrderStatus) then
    .error .order_not_cancelable
  else
    let o' :=
      if o.status = .paid ∨ o.status = .processing then
        { o with items := o.items.map (fun it =>
            if it.product.track_inventory then
              { it with product :=
                { it.product with stock_quantity := it.product.stock_quantity + it.quantity } }
            else it) }
      else o
    match fsm_step o'.status .cancel with
    | .error _ => .error .order_not_cancelable
    | .ok s' => .ok { o' with status := s' }

/-! ## Payment service layer (apps/payments/services.py) -/

/-- Python `a or b` for an optional `Decimal` `a`: both `None` and a zero
`Decimal` are falsy, a negative `Decimal` is truthy. -/
def pyOr (a : Option Rat) (b : Rat) : Rat :=
  match a with
  | none => b
  | some x => if x = 0 then b else x

/-- Python `a or b` for an optional string: both `None` and the empty string
are falsy. -/
def pyOrStr (a : Option String) (b : String) : String :=
  match a with
  | none => b
  | some s => if s = "" then b else s

/-- `PaymentOperationResult` (apps/payments/base.py:40-50), fields used by
the service layer. -/
structure OperationResult where
  success : Bool
  transaction_id : Option String
  amount : Option Rat
  error_message : Option String
deriving DecidableEq

/-- The caller-visible part of a service response dict. -/
structure SvcResponse where
  success : Bool
  error : Option String
deriving DecidableEq

/-- The rows touched by `refund_payment`: the payment and its order. -/
structure RefundWorld where
  payment : PaymentState
  order : OrderState
deriving DecidableEq

/-- `PaymentService.refund_payment` (apps/payments/services.py:268-336) after
its guard checks: provider resolution, then inside the `try` block the
provider's `refund` operation (passed as a function of the requested amount)
is called and the refund `Transaction` recorded; on provider success the
payment status becomes `refunded` when the effective amount is ≥ the payment
amount (cascading the order's `refund()` FSM transition) and
`partially_refunded` otherwise.  Guard raises (`ValueError`) surface as
`.error`; the call runs under `transaction.atomic`, so an error leaves no
state change.  An exception from the cascaded `order.refund()` is caught by
the `except` clause and converted to a failure response, with the payment
mutations made before it kept. -/
def refund_payment_after_guards (w : RefundWorld) (refund_amount : Rat)
    (provider_registered : Bool) (provider_refund : Rat → OperationResult) :
    Except SvcError (RefundWorld × SvcResponse) :=
  if provider_registered = false then .error .provider_unavailable
  else
    let result := provider_refund refund_amount
    let p := { w.payment with transactions := w.payment.transactions ++
      [⟨.refund, result.amount, result.success, (result.transaction_id.getD "")⟩] }
    if result.success then
      let p' := { p with status :=
        if refund_amount ≥ p.amount then PaymentStatus.refunded
        else PaymentStatus.partially_refunded }
      if p'.status = .refunded then
        match fsm_step w.order.status .refund with
        | .ok s' =>
          .ok (⟨p', { w.order with status := s' }⟩, ⟨true, result.error_message⟩)
        | .error _ =>
          .ok (⟨p', w.order⟩, ⟨false, some "order transition not allowed"⟩)
      else .ok (⟨p', w.order⟩, ⟨true, result.error_message⟩)
    else .ok (⟨p, w.order⟩, ⟨false, result.error_message⟩)

/-- The guard prefix of `refund_payment` (apps/payments/services.py:278-291):
refundability, the truthiness default for the amount, the nonpositive and
exceeds-refundable checks, then the rest of the method
(`refund_payment_after_guards`). -/
def refund_payment (w : RefundWorld) (amount : Option Rat) (provider_registered : Bool)
    (provider_refund : Rat → OperationResult) :
    Except SvcError (RefundWorld × SvcResponse) :=
  if can_be_refunded w.payment = false then .error .payment_not_refundable
  else
    let refund_amount := pyOr amount (refundable_amount w.payment)
    if refund_amount ≤ 0 then .error .zero_refund_amount
    else if refund_amount > refundable_amount w.payment then .error .refund_exceeds_refundable
    else refund_payment_after_guards w refund_amount provider_registered provider_refund

/-! ## `initiate_payment` event trace (apps/payments/services.py:41-118)

`initiate_payment` is decorated with `@transaction.atomic`: the whole method
body runs in one database transaction, opened at entry (`txn_begin`),
committed on normal return (`txn_commit`) and rolled back when a raise
escapes (`txn_rollback`).  The body: guard on `order.status`, resolve the
provider, `Payment.objects.create(...)` (`payment_insert`), then inside a
`try` call `provider.start_payment` (`external_call`), record an authorize
`Transaction` (`txn_insert`), and on failure `payment.mark_as_failed`
(`payment_update`).  On success no further payment write occurs:
`hasattr(result, 'payment_id')` is always false for `PaymentInitResult`
(apps/payments/base.py:12-21 declares no such field). -/

/-- Database/provider events of one `initiate_payment` call, in program
order. -/
inductive DbEvent
  | txn_begin
  | payment_insert
  | external_call
  | txn_insert
  | payment_update
  | txn_commit
  | txn_rollback
deriving DecidableEq

/-- `PaymentInitResult` (apps/payments/base.py:12-21), fields used by the
trace model. -/
structure InitResult where
  success : Bool
  error_message : Option String
deriving DecidableEq

/-- The event trace of `PaymentService.initiate_payment`, by the branch
taken: guard failures raise out of the atomic block (rollback, nothing
persisted); otherwise the payment row is inserted, the provider is called,
the authorize transaction is recorded, a failed result additionally updates
the payment, and only then does the single commit happen. -/
def initiate_payment_events (order_status : OrderStatus) (provider_registered : Bool)
    (result : InitResult) : List DbEvent :=
  if order_status ≠ .pending_payment then [.txn_begin, .txn_rollback]
  else if provider_registered = false then [.txn_begin, .txn_rollback]
  else if result.success then
    [.txn_begin, .payment_insert, .external_call, .txn_insert, .txn_commit]
  else
    [.txn_begin, .payment_insert, .external_call, .txn_insert, .payment_update, .txn_commit]

/-- The value returned (or raised) by `initiate_payment`: guard failures
raise `ValueError`; otherwise the response dict's `success` key mirrors the
provider result. -/
def initiate_payment (order_status : OrderStatus) (provider_registered : Bool)
    (result : InitResult) : Except SvcError SvcResponse :=
  if order_status ≠ .pending_payment then .error .order_not_payable
  else if provider_registered = false then .error .provider_unavailable
  else if result.success then .ok ⟨true, none⟩
  else .ok ⟨false, result.error_message⟩

/-- Whether, in a trace, the payment insert has been committed by the time
the first external provider call is made: some commit must lie strictly
between the insert and the first `external_call`. -/
def committed_before_external_call (evs : List DbEvent) : Bool :=
  let pre := evs.takeWhile (fun e => e ≠ .external_call)
  ((pre.dropWhile (fun e => e ≠ .payment_insert)).contains .txn_commit)

/-! ## `process_webhook` (apps/payments/services.py:120-216) -/

/-- `PaymentWebhookResult.status` values produced by providers and compared
against by the service (`completed`, `failed`, `authorized`; anything else is
a no-op for the payment status). -/
inductive WStatus
  | pending
  | completed
  | failed
  | canceled
  | authorized
deriving DecidableEq

/-- `PaymentWebhookResult` (apps/payments/base.py:24-37), fields used by
`process_webhook`. -/
structure WebhookResult where
  order_id : Option String
  payment_id : Option String
  status : WStatus
  amount : Option Rat
  transaction_id : Option String
  success : Bool
  error_message : Option String
deriving DecidableEq

/-- The rows visible to `process_webhook`: one order and its (single, in the
modelled scenarios) payment. -/
structure WebhookWorld where
  order : OrderState
  payment : PaymentState
deriving DecidableEq

/-- The payment lookup of apps/payments/services.py:149-165: first by
`external_id` when `result.payment_id` is truthy (non-empty); otherwise by
order id with the payment's provider code matching and its status in
`pending`/`authorized`. -/
def webhook_payment_found (w : WebhookWorld) (provider_code : String)
    (res : WebhookResult) : Bool :=
  let byExt :=
    match res.payment_id with
    | none => false
    | some pid => pid ≠ "" && w.payment.external_id == pid
  byExt ||
    match res.order_id with
    | none => false
    | some oid =>
        oid ≠ "" && w.order.id == oid && w.payment.provider_code == provider_code &&
          (w.payment.status == .pending || w.payment.status == .authorized)

/-- Everything `process_webhook` does after the provider is resolved
(apps/payments/services.py:130-216).  All of it either returns a response
dict directly (invalid signature, failed result, unmatched payment) or runs
inside the `try` block whose `except Exception` clause converts any raise
into a failure response; in particular a raise from
`OrderService.process_payment_success` (its own `transaction.atomic` having
rolled back) leaves the payment mutations made before it in place. -/
def process_webhook_body (provider_code : String) (sig_valid : Bool)
    (res : WebhookResult) (w : WebhookWorld) : WebhookWorld × SvcResponse :=
  if sig_valid = false then (w, ⟨false, some "Invalid signature"⟩)
  else if res.success = false then (w, ⟨false, res.error_message⟩)
  else if webhook_payment_found w provider_code res = false then
    (w, ⟨false, some "Payment not found"⟩)
  else
    let p := { w.payment with transactions := w.payment.transactions ++
      [⟨.webhook, res.amount, true, (res.transaction_id.getD "")⟩] }
    if res.status = .completed then
      let p' := mark_as_completed p (pyOrStr res.payment_id w.payment.external_id)
      match process_payment_success w.order with
      | .ok o' => (⟨o', p'⟩, ⟨true, none⟩)
      | .error _ => (⟨w.order, p'⟩, ⟨false, some "order is not in pending_payment status"⟩)
    else if res.status = .failed then
      (⟨w.order, mark_as_failed p (pyOrStr res.error_message "Payment failed")⟩, ⟨true, none⟩)
    else if res.status = .authorized then
      (⟨w.order, mark_as_authorized p (pyOrStr res.payment_id w.payment.external_id)⟩,
        ⟨true, none⟩)
    else (⟨w.order, p⟩, ⟨true, none⟩)

/-- `PaymentService.process_webhook` (apps/payments/services.py:120-216).
The provider resolution happens before the `try` block: an unknown provider
code raises `ValueError` out of the method; every other path returns a
response dict. -/
def process_webhook (provider_registered : Bool) (provider_code : String)
    (sig_valid : Bool) (res : WebhookResult) (w : WebhookWorld) :
    Except SvcError (WebhookWorld × SvcResponse) :=
  if provider_registered = false then .error .provider_unavailable
  else .ok (process_webhook_body provider_code sig_valid res w)

/-! ## Concrete fixtures used to instantiate the theorems -/

/-- A completed payment of 100 with no transactions yet. -/
def fixture_payment : PaymentState :=
  ⟨.completed, 100, "", "dummy", "", []⟩

/-- A paid order with no items. -/
def fixture_paid_order : OrderState :=
  ⟨"order-1", .paid, [], 100⟩

/-- A provider refund operation that reports success and echoes the requested
amount, as the shipped dummy provider does. -/
def echo_refund (a : Rat) : OperationResult :=
  ⟨true, some "tx-1", some a, none⟩

end ECommerce

namespace ECommerce

/-! ## Claims C1, C2, C3 -/

/-- Claim C1: `calculate_totals` sets `subtotal` to the sum of the items'
`line_total` values, `tax_total` to `subtotal × 0.21`, `shipping_total` to
`0.00` when `subtotal ≥ 50.00` and to `5.95` otherwise, and `grand_total` to
`subtotal + tax_total + shipping_total − discount_total`, in exact decimal
arithmetic; in particular a subtotal of exactly `50.00` yields shipping
`0.00` and a subtotal of `49.99` yields shipping `5.95`. -/
theorem calculate_totals_spec :
    (∀ (lts : List Rat) (d : Rat),
      (calculate_totals lts d).subtotal = lts.sum ∧
      (calculate_totals lts d).tax_total = lts.sum * 0.21 ∧
      (calculate_totals lts d).shipping_total =
        (if lts.sum ≥ 50.00 then (0.00 : Rat) else 5.95) ∧
      (calculate_totals lts d).grand_total =
        lts.sum + lts.sum * 0.21 + (if lts.sum ≥ 50.00 then (0.00 : Rat) else 5.95) - d) ∧
    (calculate_totals [50.00] 0).shipping_total = 0.00 ∧
    (calculate_totals [49.99] 0).shipping_total = 5.95 := by
  refine ⟨fun lts d => ⟨rfl, rfl, rfl, rfl⟩, ?_, ?_⟩ <;> norm_num [calculate_totals]

/-- Claim C2: invoking any transition method while the order's status is not
one of that transition's listed source states fails with an error identifying
the current status, the attempted transition and the valid source states, and
leaves the status unchanged. -/
theorem invalid_transition_fails_unchanged
    (s : OrderStatus) (t : TransitionName) (h : s ∉ transition_sources t) :
    apply_transition s t = (s, some ⟨s, t, transition_sources t⟩) := by
  simp [apply_transition, fsm_step, h]

/-- Witness for C2: calling `submit` on an order already in `paid` status. -/
theorem invalid_transition_fails_unchanged_witness :
    OrderStatus.paid ∉ transition_sources .submit ∧
    apply_transition .paid .submit =
      (.paid, some ⟨.paid, .submit, transition_sources .submit⟩) :=
  ⟨by decide, invalid_transition_fails_unchanged .paid .submit (by decide)⟩

/-- Claim C8: `cancel_order` on an order in `paid` or `processing` status
increments `stock_quantity` by the ordered quantity for every item whose
product tracks inventory and transitions the order to `canceled`;
`cancel_order` on a `draft` order cancels it with no stock mutation. -/
theorem cancel_order_stock_restoration (o : OrderState) :
    (o.status = .paid ∨ o.status = .processing →
      cancel_order o = .ok { o with
        status := .canceled
        items := o.items.map (fun it =>
          if it.product.track_inventory then
            { it with product :=
              { it.product with stock_quantity := it.product.stock_quantity + it.quantity } }
          else it) }) ∧
    (o.status = .draft → cancel_order o = .ok { o with status := .canceled }) := by
  constructor
  · intro h
    rcases h with h | h <;>
      simp [cancel_order, fsm_step, transition_sources, transition_target, h]
  · intro h
    simp [cancel_order, fsm_step, transition_sources, transition_target, h]

/-- Witness for C8: canceling a paid order with one tracked item (quantity 2,
stock 5) and one untracked item (quantity 3, stock 7) restores only the
tracked item's stock to 7 and cancels the order. -/
theorem cancel_order_stock_restoration_witness :
    cancel_order ⟨"o1", .paid, [⟨2, ⟨true, 5⟩⟩, ⟨3, ⟨false, 7⟩⟩], 100⟩ =
      .ok ⟨"o1", .canceled, [⟨2, ⟨true, 7⟩⟩, ⟨3, ⟨false, 7⟩⟩], 100⟩ := by
  have h :=
    (cancel_order_stock_restoration ⟨"o1", .paid, [⟨2, ⟨true, 5⟩⟩, ⟨3, ⟨false, 7⟩⟩], 100⟩).1
      (Or.inl rfl)
  simpa using h

/-- Claim C3 (code behaviour at the failing input): a successful
`mark_as_paid` transition on an order in `pending_payment` moves the status
to `paid` but appends zero `OrderStatusHistory` rows, because the receiver in
`apps/orders/signals.py` is never imported, hence never connected to the
`post_transition` signal. -/
theorem transition_appends_no_history_row :
    (run_transition .pending_payment [] .mark_as_paid).1.1 = .paid ∧
    (run_transition .pending_payment [] .mark_as_paid).1.2 = [] ∧
    (run_transition .pending_payment [] .mark_as_paid).2 = none := by
  decide

/-! ## Claims C5, C6 (`initiate_payment`) -/

/-- Claim C5 counterexample: in the successful `initiate_payment` run on a
payable order, the single commit of the enclosing `transaction.atomic` block
comes only at the end of the trace; no commit lies between the pending
Payment insert and the external provider call, so the Payment row is not
durably persisted before `start_payment` is invoked. -/
theorem payment_not_committed_before_provider_call :
    initiate_payment_events .pending_payment true ⟨true, none⟩ =
      [.txn_begin, .payment_insert, .external_call, .txn_insert, .txn_commit] ∧
    committed_before_external_call
      (initiate_payment_events .pending_payment true ⟨true, none⟩) = false := by
  decide

/-- Claim C5 amended: on a payable order with a resolvable provider, the
pending Payment row is inserted before the external provider call, but
within the same atomic transaction: no commit occurs before the external
call, and the single commit is the last event of the trace, so a crash
during the external call leaves no persisted Payment record. -/
theorem payment_insert_precedes_external_call (result : InitResult) :
    ((initiate_payment_events .pending_payment true result).takeWhile
        (fun e => e ≠ .external_call)).contains .payment_insert = true ∧
    committed_before_external_call
      (initiate_payment_events .pending_payment true result) = false ∧
    (initiate_payment_events .pending_payment true result).getLast? =
      some .txn_commit := by
  have h : initiate_payment_events .pending_payment true result =
      if result.success then
        [.txn_begin, .payment_insert, .external_call, .txn_insert, .txn_commit]
      else
        [.txn_begin, .payment_insert, .external_call, .txn_insert, .payment_update,
          .txn_commit] := by
    simp [initiate_payment_events]
  rw [h]
  by_cases hs : result.success <;> simp only [hs, if_true, if_false] <;> decide

/-- Claim C6: `initiate_payment` on an order whose status is not
`pending_payment` fails with the order-not-payable error and its trace
contains no Payment insert; on a payable order whose provider code does not
resolve it fails with the provider-unavailable error, again with no Payment
insert in the trace. -/
theorem initiate_payment_guard_failures (s : OrderStatus) (reg : Bool) (r : InitResult) :
    (s ≠ .pending_payment →
      initiate_payment s reg r = .error .order_not_payable ∧
      DbEvent.payment_insert ∉ initiate_payment_events s reg r) ∧
    (s = .pending_payment → reg = false →
      initiate_payment s reg r = .error .provider_unavailable ∧
      DbEvent.payment_insert ∉ initiate_payment_events s reg r) := by
  constructor
  · intro h
    simp [initiate_payment, initiate_payment_events, h]
  · intro h hr
    subst h
    subst hr
    simp [initiate_payment, initiate_payment_events]

/-- Witness for C6: a draft order is rejected as not payable, and a payable
order with an unknown provider code is rejected as provider-unavailable;
neither trace contains a Payment insert. -/
theorem initiate_payment_guard_failures_witness :
    (initiate_payment .draft true ⟨true, none⟩ = .error .order_not_payable ∧
      DbEvent.payment_insert ∉ initiate_payment_events .draft true ⟨true, none⟩) ∧
    (initiate_payment .pending_payment false ⟨true, none⟩ = .error .provider_unavailable ∧
      DbEvent.payment_insert ∉ initiate_payment_events .pending_payment false ⟨true, none⟩) :=
  ⟨(initiate_payment_guard_failures .draft true ⟨true, none⟩).1 (by decide),
   (initiate_payment_guard_failures .pending_payment false ⟨true, none⟩).2 rfl rfl⟩

/-! ## Claim C9 (`process_webhook` error containment) -/

/-- Claim C9 counterexample: `process_webhook` called with a provider code
that does not resolve raises `ValueError` out of the method (the provider
check sits before the `try` block), rather than returning a failure
response. -/
theorem process_webhook_raises_on_unknown_provider :
    process_webhook false "nonexistent" true
      ⟨none, none, .completed, none, none, true, none⟩
      ⟨⟨"order-9", .pending_payment, [], 100⟩, ⟨.pending, 100, "", "dummy", "", []⟩⟩ =
      .error .provider_unavailable := by
  rfl

/-- Claim C9 amended: once the provider code resolves, `process_webhook`
never raises: invalid signatures, failed webhook results, unmatched payments
and errors raised while applying the status (all of which sit in or before
the `try/except` that converts raises into failure responses) all yield a
returned response dict. -/
theorem process_webhook_never_raises_when_provider_known
    (pc : String) (sig : Bool) (res : WebhookResult) (w : WebhookWorld) :
    ∃ out, process_webhook true pc sig res w = .ok out :=
  ⟨process_webhook_body pc sig res w, rfl⟩

/-! ## Claims C7, C10 (`refund_payment`) -/

/-- Helper: once the three validation guards have passed, no branch of
`refund_payment` produces the zero-amount validation error. -/
theorem refund_payment_after_guards_ne_zero_error (w : RefundWorld) (ra : Rat)
    (reg : Bool) (pr : Rat → OperationResult) :
    refund_payment_after_guards w ra reg pr ≠ .error .zero_refund_amount := by
  intro hEq
  simp only [refund_payment_after_guards] at hEq
  split_ifs at hEq <;> first | simp at hEq | (split at hEq <;> simp at hEq)

/-- Claim C10: for a refundable payment with positive refundable amount, an
explicit amount of 0 is treated exactly like a missing amount — the
truthiness default `amount or payment.refundable_amount` kicks in, the call
is not rejected as a zero-amount validation error, and the full refundable
amount is refunded. -/
theorem refund_zero_amount_treated_as_default (w : RefundWorld) (reg : Bool)
    (pr : Rat → OperationResult)
    (h : can_be_refunded w.payment = true) (h2 : 0 < refundable_amount w.payment) :
    refund_payment w (some 0) reg pr = refund_payment w none reg pr ∧
    refund_payment w (some 0) reg pr ≠ .error .zero_refund_amount := by
  have hOr : pyOr (some 0) (refundable_amount w.payment) =
      pyOr none (refundable_amount w.payment) := by
    simp [pyOr]
  have h1 : refund_payment w (some 0) reg pr = refund_payment w none reg pr := by
    simp only [refund_payment, hOr]
  refine ⟨h1, ?_⟩
  rw [h1]
  intro hEq
  simp only [refund_payment] at hEq
  split_ifs at hEq with hc1 hc2 hc3
  · simp at hEq
  · exact absurd (by simpa [pyOr] using hc2) (not_le.mpr h2)
  · simp at hEq
  · exact refund_payment_after_guards_ne_zero_error _ _ _ _ hEq

/-- Witness for C10: the fixture payment (completed, amount 100, nothing yet
refunded) with an explicit amount of 0 behaves exactly like omitting the
amount and is not rejected. -/
theorem refund_zero_amount_treated_as_default_witness :
    refund_payment ⟨fixture_payment, fixture_paid_order⟩ (some 0) true echo_refund =
      refund_payment ⟨fixture_payment, fixture_paid_order⟩ none true echo_refund ∧
    refund_payment ⟨fixture_payment, fixture_paid_order⟩ (some 0) true echo_refund ≠
      .error .zero_refund_amount :=
  refund_zero_amount_treated_as_default ⟨fixture_payment, fixture_paid_order⟩ true
    echo_refund (by decide)
    (by norm_num [refundable_amount, refunded_amount, can_be_refunded, fixture_payment])

/-- Claim C7 counterexample: on the fixture payment (completed, amount 100,
refundable 100) an explicit refund amount of 0 is not rejected as a
zero-amount validation error: the call succeeds, records a successful refund
Transaction of 100, sets the payment to `refunded` and cascades the order's
`refund()` transition. -/
theorem refund_zero_amount_not_rejected :
    refund_payment ⟨fixture_payment, fixture_paid_order⟩ (some 0) true echo_refund =
      .ok (⟨⟨.refunded, 100, "", "dummy", "", [⟨.refund, some 100, true, "tx-1"⟩]⟩,
            ⟨"order-1", .refunded, [], 100⟩⟩,
           ⟨true, none⟩) := by
  norm_num [refund_payment, refund_payment_after_guards, pyOr, can_be_refunded,
    refundable_amount, refunded_amount, fixture_payment, fixture_paid_order, echo_refund,
    fsm_step, transition_sources, transition_target]

/-- Claim C7 amended: `refund_payment` requires `payment.can_be_refunded` and
computes the effective refund amount as Python `amount or refundable_amount`,
so an explicit 0 (like a missing amount) defaults to the full refundable
amount instead of being rejected; a nonpositive effective amount (e.g. a
negative explicit amount) and an effective amount exceeding
`refundable_amount` are rejected as synchronous validation errors with no
refund Transaction created; on provider success, an effective amount ≥ the
original payment amount sets the payment to `refunded` and cascades the
order's `refund()` transition, while a smaller effective amount sets the
payment to `partially_refunded` and leaves the order untouched. -/
theorem refund_payment_guards_and_updates (w : RefundWorld) (amount : Option Rat)
    (reg : Bool) (pr : Rat → OperationResult) :
    (can_be_refunded w.payment = false →
      refund_payment w amount reg pr = .error .payment_not_refundable) ∧
    (can_be_refunded w.payment = true →
      pyOr amount (refundable_amount w.payment) ≤ 0 →
      refund_payment w amount reg pr = .error .zero_refund_amount) ∧
    (can_be_refunded w.payment = true →
      0 < pyOr amount (refundable_amount w.payment) →
      refundable_amount w.payment < pyOr amount (refundable_amount w.payment) →
      refund_payment w amount reg pr = .error .refund_exceeds_refundable) ∧
    (∀ ra : Rat, ra = pyOr amount (refundable_amount w.payment) →
      can_be_refunded w.payment = true → 0 < ra →
      ra ≤ refundable_amount w.payment → (pr ra).success = true →
      w.payment.amount ≤ ra → w.order.status = .paid →
      refund_payment w amount true pr =
        .ok (⟨{ w.payment with
                  status := .refunded
                  transactions := w.payment.transactions ++
                    [⟨.refund, (pr ra).amount, true, ((pr ra).transaction_id.getD "")⟩] },
              { w.order with status := .refunded }⟩,
             ⟨true, (pr ra).error_message⟩)) ∧
    (∀ ra : Rat, ra = pyOr amount (refundable_amount w.payment) →
      can_be_refunded w.payment = true → 0 < ra →
      ra ≤ refundable_amount w.payment → (pr ra).success = true →
      ra < w.payment.amount →
      refund_payment w amount true pr =
        .ok (⟨{ w.payment with
                  status := .partially_refunded
                  transactions := w.payment.transactions ++
                    [⟨.refund, (pr ra).amount, true, ((pr ra).transaction_id.getD "")⟩] },
              w.order⟩,
             ⟨true, (pr ra).error_message⟩)) := by
  refine ⟨?_, ?_, ?_, ?_, ?_⟩
  · intro h
    simp [refund_payment, h]
  · intro h hle
    simp [refund_payment, h, hle]
  · intro h hpos hexceed
    simp [refund_payment, h, not_le.mpr hexceed, not_le.mpr hpos, hexceed]
  · intro ra hra h hpos hle hsucc hfull hpaid
    subst hra
    simp [refund_payment, refund_payment_after_guards, h, not_le.mpr hpos,
      not_lt.mpr hle, hsucc, hfull, fsm_step, transition_sources, transition_target,
      hpaid]
  · intro ra hra h hpos hle hsucc hpartial
    subst hra
    simp [refund_payment, refund_payment_after_guards, h, not_le.mpr hpos,
      not_lt.mpr hle, hsucc, not_le.mpr hpartial]

/-- Witness for C7 (amended claim, full-refund branch): refunding the fixture
payment with no explicit amount refunds the full 100, marks the payment
`refunded` and moves the paid order to `refunded`. -/
theorem refund_payment_guards_and_updates_witness :
    refund_payment ⟨fixture_payment, fixture_paid_order⟩ none true echo_refund =
      .ok (⟨⟨.refunded, 100, "", "dummy", "", [⟨.refund, some 100, true, "tx-1"⟩]⟩,
            ⟨"order-1", .refunded, [], 100⟩⟩,
           ⟨true, none⟩) := by
  have h :=
    (refund_payment_guards_and_updates ⟨fixture_payment, fixture_paid_order⟩ none true
        echo_refund).2.2.2.1 100
      (by norm_num [pyOr, refundable_amount, refunded_amount, can_be_refunded,
        fixture_payment])
      (by decide) (by norm_num)
      (by norm_num [refundable_amount, refunded_amount, can_be_refunded, fixture_payment])
      (by decide) (by norm_num [fixture_payment]) (by decide)
  simpa [fixture_payment, fixture_paid_order, echo_refund] using h

/-! ## Claim C4 (webhook replay idempotence) -/

/-- Claim C4: delivering the same successful `completed` webhook twice
produces exactly one stock decrement and one `paid` transition.  Scenario:
an order in `pending_payment` with a pending payment that has no external id
yet (as after `initiate_payment`, which never sets one).  The first delivery
matches the payment through the order-id fallback, records a webhook
transaction, marks the payment completed (stamping the provider's payment id
as `external_id`) and runs `process_payment_success` (order → `paid`, stock
decremented once).  The second, identical delivery matches the payment by
`external_id`, records another webhook transaction, re-marks the payment
completed, but `process_payment_success` now fails its status guard; the
raise is caught and returned as a failure response, leaving the order status
and all stock untouched. -/
theorem webhook_replay_single_effect
    (oid pid pc fr : String) (items : List OrderItem) (gt amt : Rat) (txns : List Txn)
    (ramt : Option Rat) (rtid rerr : Option String)
    (hpid : pid ≠ "") (hoid : oid ≠ "") :
    process_webhook true pc true ⟨some oid, some pid, .completed, ramt, rtid, true, rerr⟩
        ⟨⟨oid, .pending_payment, items, gt⟩, ⟨.pending, amt, "", pc, fr, txns⟩⟩ =
      .ok (⟨⟨oid, .paid, items.map apply_stock_decrement, gt⟩,
            ⟨.completed, amt, pid, pc, fr,
             txns ++ [⟨.webhook, ramt, true, rtid.getD ""⟩]⟩⟩,
           ⟨true, none⟩) ∧
    process_webhook true pc true ⟨some oid, some pid, .completed, ramt, rtid, true, rerr⟩
        ⟨⟨oid, .paid, items.map apply_stock_decrement, gt⟩,
         ⟨.completed, amt, pid, pc, fr,
          txns ++ [⟨.webhook, ramt, true, rtid.getD ""⟩]⟩⟩ =
      .ok (⟨⟨oid, .paid, items.map apply_stock_decrement, gt⟩,
            ⟨.completed, amt, pid, pc, fr,
             (txns ++ [⟨.webhook, ramt, true, rtid.getD ""⟩]) ++
               [⟨.webhook, ramt, true, rtid.getD ""⟩]⟩⟩,
           ⟨false, some "order is not in pending_payment status"⟩) := by
  constructor
  · simp [process_webhook, process_webhook_body, webhook_payment_found,
      process_payment_success, mark_as_completed, pyOrStr, fsm_step, transition_sources,
      transition_target, hpid, hoid, Ne.symm hpid]
  · simp [process_webhook, process_webhook_body, webhook_payment_found,
      process_payment_success, mark_as_completed, pyOrStr, hpid, hoid]

/-- Witness for C4: order `order-2` (one tracked item, quantity 2, stock 5)
with a pending payment; the duplicated webhook carries payment id `pay-7`.
The first delivery pays the order and drops the stock to 3; the second only
appends a webhook transaction and reports failure. -/
theorem webhook_replay_single_effect_witness :
    process_webhook true "dummy" true
        ⟨some "order-2", some "pay-7", .completed, some 100, some "tr-1", true, none⟩
        ⟨⟨"order-2", .pending_payment, [⟨2, ⟨true, 5⟩⟩], 100⟩,
         ⟨.pending, 100, "", "dummy", "", []⟩⟩ =
      .ok (⟨⟨"order-2", .paid, [⟨2, ⟨true, 5⟩⟩].map apply_stock_decrement, 100⟩,
            ⟨.completed, 100, "pay-7", "dummy", "",
             [] ++ [⟨.webhook, some 100, true, (some "tr-1").getD ""⟩]⟩⟩,
           ⟨true, none⟩) ∧
    process_webhook true "dummy" true
        ⟨some "order-2", some "pay-7", .completed, some 100, some "tr-1", true, none⟩
        ⟨⟨"order-2", .paid, [⟨2, ⟨true, 5⟩⟩].map apply_stock_decrement, 100⟩,
         ⟨.completed, 100, "pay-7", "dummy", "",
          [] ++ [⟨.webhook, some 100, true, (some "tr-1").getD ""⟩]⟩⟩ =
      .ok (⟨⟨"order-2", .paid, [⟨2, ⟨true, 5⟩⟩].map apply_stock_decrement, 100⟩,
            ⟨.completed, 100, "pay-7", "dummy", "",
             ([] ++ [⟨.webhook, some 100, true, (some "tr-1").getD ""⟩]) ++
               [⟨.webhook, some 100, true, (some "tr-1").getD ""⟩]⟩⟩,
           ⟨false, some "order is not in pending_payment status"⟩) :=
  webhook_replay_single_effect "order-2" "pay-7" "dummy" "" [⟨2, ⟨true, 5⟩⟩] 100 100 []
    (some 100) (some "tr-1") none (by decide) (by decide)

end ECommerce
